import Mathlib

/-!
Verification of the core layer of a sports-odds API client SDK
(request construction, response parsing, error classification).

The repository ships only example scripts as callers of the core; the core
itself (Domain Model, Request Builder, Response Parser, Error Classifier,
Client Facade) is specified in the design document. The definitions below
are therefore modelled from that specification, faithful to its words, and
the theorems settle the testable properties against this model.
-/

/-- Modelled from the spec: the raw decoded JSON value fed to the Response
Parser (the provider speaks HTTP/JSON; numbers cover both American integer
odds and decimal odds, so they are represented exactly as rationals). -/
inductive Json where
  | null : Json
  | bool (b : Bool) : Json
  | num (q : Rat) : Json
  | str (s : String) : Json
  | arr (xs : List Json) : Json
  | obj (fields : List (String × Json)) : Json

/-- Lookup of a key in a JSON object's field list (first match wins). -/
def jlookup : List (String × Json) → String → Option Json
  | [], _ => none
  | (key, v) :: rest, k => if key = k then some v else jlookup rest k

/-- Short description of a JSON value's shape, used as the raw-value text in
parse errors (for a string the raw string itself is reported). -/
def jokind : Json → String
  | Json.null => "null"
  | Json.bool _ => "boolean"
  | Json.num _ => "number"
  | Json.str s => s
  | Json.arr _ => "array"
  | Json.obj _ => "object"

/-- Modelled from the spec: a ParseError surfaces the offending field path
and raw value. -/
structure ParseError where
  field : String
  raw : String
deriving DecidableEq

/-- Modelled from the spec: an absolute UTC instant, as parsed from the
provider's ISO-8601 UTC string form. -/
structure UTCInstant where
  year : Nat
  month : Nat
  day : Nat
  hour : Nat
  minute : Nat
  second : Nat
deriving DecidableEq

/-- Order key for UTC instants: lexicographic on the calendar fields. -/
def UTCInstant.toKey (t : UTCInstant) : Nat :=
  ((((t.year * 13 + t.month) * 32 + t.day) * 24 + t.hour) * 60 + t.minute) * 60 + t.second

/-- Field-range validity of a calendar instant. -/
def UTCInstant.valid (t : UTCInstant) : Bool :=
  1 ≤ t.month && t.month ≤ 12 && 1 ≤ t.day && t.day ≤ 31 &&
    t.hour ≤ 23 && t.minute ≤ 59 && t.second ≤ 59

/-- Numeric value of a decimal digit character, if it is one. -/
def digitVal (c : Char) : Option Nat :=
  if c.isDigit then some (c.toNat - 48) else none

/-- Two decimal digit characters as a number below 100. -/
def twoDigits (a b : Char) : Option Nat :=
  match digitVal a, digitVal b with
  | some x, some y => some (x * 10 + y)
  | _, _ => none

/-- Modelled from the spec: parsing of the provider's ISO-8601 UTC timestamp
string form, e.g. 2023-11-29T22:40:39Z; a malformed string yields none and
the caller turns that into a ParseError naming the field and raw value. -/
def parseTimestamp (s : String) : Option UTCInstant :=
  match s.data with
  | [y1, y2, y3, y4, c1, m1, m2, c2, d1, d2, c3, h1, h2, c4, n1, n2, c5, s1, s2, c6] =>
    if c1 = '-' && c2 = '-' && c3 = 'T' && c4 = ':' && c5 = ':' && c6 = 'Z' then
      match twoDigits y1 y2, twoDigits y3 y4, twoDigits m1 m2, twoDigits d1 d2,
            twoDigits h1 h2, twoDigits n1 n2, twoDigits s1 s2 with
      | some yh, some yl, some mo, some d, some h, some mi, some sec =>
        let t : UTCInstant := ⟨yh * 100 + yl, mo, d, h, mi, sec⟩
        if t.valid then some t else none
      | _, _, _, _, _, _, _ => none
    else none
  | _ => none

/-- Left-pad a number to two digits. -/
def pad2 (n : Nat) : String :=
  if n < 10 then "0" ++ toString n else toString n

/-- Left-pad a number to four digits. -/
def pad4 (n : Nat) : String :=
  if n < 10 then "000" ++ toString n
  else if n < 100 then "00" ++ toString n
  else if n < 1000 then "0" ++ toString n
  else toString n

/-- Render a UTC instant back to the provider's ISO-8601 UTC string form. -/
def formatTimestamp (t : UTCInstant) : String :=
  pad4 t.year ++ "-" ++ pad2 t.month ++ "-" ++ pad2 t.day ++ "T" ++
    pad2 t.hour ++ ":" ++ pad2 t.minute ++ ":" ++ pad2 t.second ++ "Z"

/-- Modelled from the spec: Sport domain record (key, title, active flag). -/
structure Sport where
  key : String
  title : String
  active : Bool
deriving DecidableEq

/-- Modelled from the spec: Outcome domain record; price always present,
point and the link/sid/bet_limit extras optional. -/
structure Outcome where
  name : String
  price : Rat
  point : Option Rat
  link : Option String
  sid : Option String
  bet_limit : Option Rat
deriving DecidableEq

/-- Modelled from the spec: Market domain record with its ordered sequence
of outcomes. -/
structure Market where
  key : String
  last_update : UTCInstant
  outcomes : List Outcome
  link : Option String
  sid : Option String
deriving DecidableEq

/-- Modelled from the spec: Bookmaker domain record; the markets sequence
may be empty but never absent. -/
structure Bookmaker where
  key : String
  title : String
  last_update : UTCInstant
  markets : List Market
  link : Option String
  sid : Option String
deriving DecidableEq

/-- Modelled from the spec: Event domain record; commence_time always
present, bookmakers an ordered sequence. -/
structure Event where
  id : String
  sport_key : String
  commence_time : UTCInstant
  home_team : String
  away_team : String
  bookmakers : List Bookmaker
deriving DecidableEq

/-- Modelled from the spec: a score entry's value is string or numeric,
provider-dependent. -/
inductive ScoreValue where
  | str (s : String) : ScoreValue
  | num (q : Rat) : ScoreValue
deriving DecidableEq

/-- Modelled from the spec: Score domain record. -/
structure Score where
  name : String
  score : ScoreValue
deriving DecidableEq

/-- Modelled from the spec: ScoredGame domain record; scores is an optional
sequence, absent until the game starts (absence is not the empty sequence). -/
structure ScoredGame where
  id : String
  sport_key : String
  sport_title : String
  commence_time : UTCInstant
  home_team : String
  away_team : String
  completed : Bool
  scores : Option (List Score)
deriving DecidableEq

/-- Modelled from the spec: Participant domain record. -/
structure Participant where
  id : String
  full_name : String
deriving DecidableEq

/-- Modelled from the spec: HistoricalSnapshot is a generic container over
the wrapped payload type; timestamp always present, neighbours optional. -/
structure HistoricalSnapshot (α : Type) where
  timestamp : UTCInstant
  previous_timestamp : Option UTCInstant
  next_timestamp : Option UTCInstant
  data : α

/-- Modelled from the spec: required string field of a JSON object; absence
or a non-string shape is a ParseError naming the field. -/
def reqStr (fields : List (String × Json)) (k : String) : Except ParseError String :=
  match jlookup fields k with
  | some (Json.str s) => Except.ok s
  | some j => Except.error ⟨k, jokind j⟩
  | none => Except.error ⟨k, "missing"⟩

/-- Modelled from the spec: required numeric field of a JSON object. -/
def reqNum (fields : List (String × Json)) (k : String) : Except ParseError Rat :=
  match jlookup fields k with
  | some (Json.num q) => Except.ok q
  | some j => Except.error ⟨k, jokind j⟩
  | none => Except.error ⟨k, "missing"⟩

/-- Modelled from the spec: required boolean field of a JSON object. -/
def reqBool (fields : List (String × Json)) (k : String) : Except ParseError Bool :=
  match jlookup fields k with
  | some (Json.bool b) => Except.ok b
  | some j => Except.error ⟨k, jokind j⟩
  | none => Except.error ⟨k, "missing"⟩

/-- Modelled from the spec: optional numeric field; a field absent in the
source (or explicitly null) is mapped to not-present, never defaulted. -/
def optNum (fields : List (String × Json)) (k : String) : Except ParseError (Option Rat) :=
  match jlookup fields k with
  | none => Except.ok none
  | some Json.null => Except.ok none
  | some (Json.num q) => Except.ok (some q)
  | some j => Except.error ⟨k, jokind j⟩

/-- Modelled from the spec: optional string field; absent or null maps to
not-present. -/
def optStr (fields : List (String × Json)) (k : String) : Except ParseError (Option String) :=
  match jlookup fields k with
  | none => Except.ok none
  | some Json.null => Except.ok none
  | some (Json.str s) => Except.ok (some s)
  | some j => Except.error ⟨k, jokind j⟩

/-- Modelled from the spec: required timestamp field, parsed from the
ISO-8601 UTC string form; malformed input is a ParseError carrying the
field name and the raw value. -/
def reqTime (fields : List (String × Json)) (k : String) : Except ParseError UTCInstant :=
  match jlookup fields k with
  | some (Json.str s) =>
    match parseTimestamp s with
    | some t => Except.ok t
    | none => Except.error ⟨k, s⟩
  | some j => Except.error ⟨k, jokind j⟩
  | none => Except.error ⟨k, "missing"⟩

/-- Modelled from the spec: optional timestamp field (absent or explicit
null maps to not-present); a present but malformed timestamp is a
ParseError naming the field and raw value. -/
def optTime (fields : List (String × Json)) (k : String) : Except ParseError (Option UTCInstant) :=
  match jlookup fields k with
  | none => Except.ok none
  | some Json.null => Except.ok none
  | some (Json.str s) =>
    match parseTimestamp s with
    | some t => Except.ok (some t)
    | none => Except.error ⟨k, s⟩
  | some j => Except.error ⟨k, jokind j⟩

/-- Modelled from the spec: parse every element of a JSON array with the
given element parser; an empty array body is valid and maps to the empty
sequence, not a ParseError. -/
def parseList (f : Json → Except ParseError α) : Json → Except ParseError (List α)
  | Json.arr xs => xs.mapM f
  | j => Except.error ⟨"array", jokind j⟩

/-- Modelled from the spec: sequence-typed field that defaults to the empty
sequence when absent (markets of a bookmaker, bookmakers of an event). -/
def seqField (f : Json → Except ParseError α) (fields : List (String × Json))
    (k : String) : Except ParseError (List α) :=
  match jlookup fields k with
  | none => Except.ok []
  | some j => parseList f j

/-- Modelled from the spec: Response Parser rule for one Outcome. -/
def parseOutcome : Json → Except ParseError Outcome
  | Json.obj fields =>
    match reqStr fields "name" with
    | Except.error e => Except.error e
    | Except.ok name =>
      match reqNum fields "price" with
      | Except.error e => Except.error e
      | Except.ok price =>
        match optNum fields "point" with
        | Except.error e => Except.error e
        | Except.ok point =>
          match optStr fields "link" with
          | Except.error e => Except.error e
          | Except.ok link =>
            match optStr fields "sid" with
            | Except.error e => Except.error e
            | Except.ok sid =>
              match optNum fields "bet_limit" with
              | Except.error e => Except.error e
              | Except.ok bl => Except.ok ⟨name, price, point, link, sid, bl⟩
  | j => Except.error ⟨"outcome", jokind j⟩

/-- Modelled from the spec: Response Parser rule for one Market. -/
def parseMarket : Json → Except ParseError Market
  | Json.obj fields =>
    match reqStr fields "key" with
    | Except.error e => Except.error e
    | Except.ok key =>
      match reqTime fields "last_update" with
      | Except.error e => Except.error e
      | Except.ok lu =>
        match seqField parseOutcome fields "outcomes" with
        | Except.error e => Except.error e
        | Except.ok outs =>
          match optStr fields "link" with
          | Except.error e => Except.error e
          | Except.ok link =>
            match optStr fields "sid" with
            | Except.error e => Except.error e
            | Except.ok sid => Except.ok ⟨key, lu, outs, link, sid⟩
  | j => Except.error ⟨"market", jokind j⟩

/-- Modelled from the spec: Response Parser rule for one Bookmaker. -/
def parseBookmaker : Json → Except ParseError Bookmaker
  | Json.obj fields =>
    match reqStr fields "key" with
    | Except.error e => Except.error e
    | Except.ok key =>
      match reqStr fields "title" with
      | Except.error e => Except.error e
      | Except.ok title =>
        match reqTime fields "last_update" with
        | Except.error e => Except.error e
        | Except.ok lu =>
          match seqField parseMarket fields "markets" with
          | Except.error e => Except.error e
          | Except.ok mkts =>
            match optStr fields "link" with
            | Except.error e => Except.error e
            | Except.ok link =>
              match optStr fields "sid" with
              | Except.error e => Except.error e
              | Except.ok sid => Except.ok ⟨key, title, lu, mkts, link, sid⟩
  | j => Except.error ⟨"bookmaker", jokind j⟩

/-- Modelled from the spec: Response Parser rule for one Event. -/
def parseEvent : Json → Except ParseError Event
  | Json.obj fields =>
    match reqStr fields "id" with
    | Except.error e => Except.error e
    | Except.ok id =>
      match reqStr fields "sport_key" with
      | Except.error e => Except.error e
      | Except.ok sk =>
        match reqTime fields "commence_time" with
        | Except.error e => Except.error e
        | Except.ok ct =>
          match reqStr fields "home_team" with
          | Except.error e => Except.error e
          | Except.ok ht =>
            match reqStr fields "away_team" with
            | Except.error e => Except.error e
            | Except.ok at_ =>
              match seqField parseBookmaker fields "bookmakers" with
              | Except.error e => Except.error e
              | Except.ok bks => Except.ok ⟨id, sk, ct, ht, at_, bks⟩
  | j => Except.error ⟨"event", jokind j⟩

/-- Modelled from the spec: Response Parser rule for one Sport. -/
def parseSport : Json → Except ParseError Sport
  | Json.obj fields =>
    match reqStr fields "key" with
    | Except.error e => Except.error e
    | Except.ok key =>
      match reqStr fields "title" with
      | Except.error e => Except.error e
      | Except.ok title =>
        match reqBool fields "active" with
        | Except.error e => Except.error e
        | Except.ok act => Except.ok ⟨key, title, act⟩
  | j => Except.error ⟨"sport", jokind j⟩

/-- Modelled from the spec: Response Parser rule for one Score entry, whose
value is string or numeric, provider-dependent. -/
def parseScore : Json → Except ParseError Score
  | Json.obj fields =>
    match reqStr fields "name" with
    | Except.error e => Except.error e
    | Except.ok name =>
      match jlookup fields "score" with
      | some (Json.str s) => Except.ok ⟨name, ScoreValue.str s⟩
      | some (Json.num q) => Except.ok ⟨name, ScoreValue.num q⟩
      | some j => Except.error ⟨"score", jokind j⟩
      | none => Except.error ⟨"score", "missing"⟩
  | j => Except.error ⟨"score", jokind j⟩

/-- Modelled from the spec: optional sequence of scores; the scores key
absent (or null) parses as not-present, never as the empty sequence. -/
def optScores (fields : List (String × Json)) : Except ParseError (Option (List Score)) :=
  match jlookup fields "scores" with
  | none => Except.ok none
  | some Json.null => Except.ok none
  | some j =>
    match parseList parseScore j with
    | Except.error e => Except.error e
    | Except.ok ss => Except.ok (some ss)

/-- Modelled from the spec: Response Parser rule for one ScoredGame. -/
def parseScoredGame : Json → Except ParseError ScoredGame
  | Json.obj fields =>
    match reqStr fields "id" with
    | Except.error e => Except.error e
    | Except.ok id =>
      match reqStr fields "sport_key" with
      | Except.error e => Except.error e
      | Except.ok sk =>
        match reqStr fields "sport_title" with
        | Except.error e => Except.error e
        | Except.ok st =>
          match reqTime fields "commence_time" with
          | Except.error e => Except.error e
          | Except.ok ct =>
            match reqStr fields "home_team" with
            | Except.error e => Except.error e
            | Except.ok ht =>
              match reqStr fields "away_team" with
              | Except.error e => Except.error e
              | Except.ok at_ =>
                match reqBool fields "completed" with
                | Except.error e => Except.error e
                | Except.ok comp =>
                  match optScores fields with
                  | Except.error e => Except.error e
                  | Except.ok ss => Except.ok ⟨id, sk, st, ct, ht, at_, comp, ss⟩
  | j => Except.error ⟨"scored_game", jokind j⟩

/-- Modelled from the spec: Response Parser rule for one Participant. -/
def parseParticipant : Json → Except ParseError Participant
  | Json.obj fields =>
    match reqStr fields "id" with
    | Except.error e => Except.error e
    | Except.ok id =>
      match reqStr fields "full_name" with
      | Except.error e => Except.error e
      | Except.ok fn => Except.ok ⟨id, fn⟩
  | j => Except.error ⟨"participant", jokind j⟩

/-- Modelled from the spec: historical endpoints wrap the ordinary payload
inside a timestamp envelope; the parser recurses into the data field with
the same per-entity rules as the live endpoint (the inner parser), and the
neighbour timestamps are optional (explicit null or absence maps to
not-present). -/
def parseHistorical (inner : Json → Except ParseError α) :
    Json → Except ParseError (HistoricalSnapshot α)
  | Json.obj fields =>
    match reqTime fields "timestamp" with
    | Except.error e => Except.error e
    | Except.ok ts =>
      match optTime fields "previous_timestamp" with
      | Except.error e => Except.error e
      | Except.ok prev =>
        match optTime fields "next_timestamp" with
        | Except.error e => Except.error e
        | Except.ok next =>
          match jlookup fields "data" with
          | none => Except.error ⟨"data", "missing"⟩
          | some d =>
            match inner d with
            | Except.error e => Except.error e
            | Except.ok v => Except.ok ⟨ts, prev, next, v⟩
  | j => Except.error ⟨"snapshot", jokind j⟩

/-- Comma-join of character lists, the core of list-valued parameter
serialization. -/
def joinCharsAux : List (List Char) → List Char
  | [] => []
  | [v] => v
  | v :: w :: vs => v ++ ',' :: joinCharsAux (w :: vs)

/-- Split of a character list at commas, the inverse direction of
parameter serialization. -/
def splitCharsAux : List Char → List Char → List (List Char)
  | acc, [] => [acc.reverse]
  | acc, c :: cs =>
    if c = ',' then acc.reverse :: splitCharsAux [] cs
    else splitCharsAux (c :: acc) cs

/-- Modelled from the spec: list-valued parameters are serialized as
comma-joined strings in the order supplied. -/
def joinComma (l : List String) : String :=
  String.mk (joinCharsAux (l.map String.data))

/-- Re-parsing of a comma-joined parameter string back into its values. -/
def splitComma (s : String) : List String :=
  (splitCharsAux [] s.data).map (fun cs => String.mk cs)

/-- Modelled from the spec: local configuration errors the Request Builder
or client construction can raise before any network call. -/
inductive ConfigError where
  | regionsBookmakersExclusive : ConfigError
  | commenceTimeOrder : ConfigError
  | missingApiKey : ConfigError
deriving DecidableEq

/-- Modelled from the spec: the canonical query representation produced by
the Request Builder, a path plus ordered key/value parameters. -/
structure Request where
  path : String
  params : List (String × String)
deriving DecidableEq

/-- Modelled from the spec: the configuration record for odds-style calls. -/
structure OddsConfig where
  sport : String
  regions : Option (List String)
  markets : Option (List String)
  odds_format : Option String
  date_format : Option String
  bookmakers : Option (List String)
  commence_time_from : Option UTCInstant
  commence_time_to : Option UTCInstant
  event_ids : Option (List String)
  include_links : Bool
  include_sids : Bool
  include_bet_limits : Bool
deriving DecidableEq

/-- Serialization of an optional list-valued parameter under its canonical
provider name, comma-joined in the order supplied. -/
def listParam (name : String) : Option (List String) → List (String × String)
  | none => []
  | some vs => [(name, joinComma vs)]

/-- Serialization of an optional scalar parameter. -/
def scalarParam (name : String) : Option String → List (String × String)
  | none => []
  | some v => [(name, v)]

/-- Serialization of an optional timestamp parameter. -/
def timeParam (name : String) : Option UTCInstant → List (String × String)
  | none => []
  | some t => [(name, formatTimestamp t)]

/-- Modelled from the spec: boolean options are omitted from the query when
false and included as a canonical true-token when true. -/
def boolParam (name : String) (b : Bool) : List (String × String) :=
  if b then [(name, "true")] else []

/-- Modelled from the spec: the ordered parameter list for an odds-style
call, under the provider's canonical query parameter names. -/
def oddsParams (apiKey : String) (cfg : OddsConfig) : List (String × String) :=
  ("apiKey", apiKey) ::
    (listParam "regions" cfg.regions ++
     listParam "markets" cfg.markets ++
     scalarParam "oddsFormat" cfg.odds_format ++
     scalarParam "dateFormat" cfg.date_format ++
     listParam "bookmakers" cfg.bookmakers ++
     timeParam "commenceTimeFrom" cfg.commence_time_from ++
     timeParam "commenceTimeTo" cfg.commence_time_to ++
     listParam "eventIds" cfg.event_ids ++
     boolParam "includeLinks" cfg.include_links ++
     boolParam "includeSids" cfg.include_sids ++
     boolParam "includeBetLimits" cfg.include_bet_limits)

/-- Modelled from the spec: Request Builder validation followed by request
construction; bookmakers and regions are mutually exclusive, and when both
commence-time bounds are given they must satisfy from at most to, each
violation a local ConfigurationError raised before any transport call. -/
def buildRequestAt (path : String) (apiKey : String) (cfg : OddsConfig) :
    Except ConfigError Request :=
  if cfg.regions.isSome && cfg.bookmakers.isSome then
    Except.error ConfigError.regionsBookmakersExclusive
  else
    match cfg.commence_time_from, cfg.commence_time_to with
    | some tf, some tt =>
      if tt.toKey < tf.toKey then Except.error ConfigError.commenceTimeOrder
      else Except.ok ⟨path, oddsParams apiKey cfg⟩
    | _, _ => Except.ok ⟨path, oddsParams apiKey cfg⟩

/-- Modelled from the spec: the Request Builder for the odds endpoint of a
sport. -/
def buildOddsRequest (apiKey : String) (cfg : OddsConfig) : Except ConfigError Request :=
  buildRequestAt ("/v4/sports/" ++ cfg.sport ++ "/odds") apiKey cfg

/-- Modelled from the spec: the Request Builder for the single-event odds
endpoint. -/
def buildEventOddsRequest (apiKey : String) (eventId : String) (cfg : OddsConfig) :
    Except ConfigError Request :=
  buildRequestAt ("/v4/sports/" ++ cfg.sport ++ "/events/" ++ eventId ++ "/odds")
    apiKey cfg

/-- Modelled from the spec: the kinds of typed error outcome the Error
Classifier can produce for a non-2xx transport status. -/
inductive ErrorKind where
  | authentication : ErrorKind
  | notFound : ErrorKind
  | providerConfiguration : ErrorKind
  | quotaExceeded : ErrorKind
  | providerUnavailable : ErrorKind
  | provider : ErrorKind
deriving DecidableEq

/-- Modelled from the spec: one typed error outcome carrying status code,
provider-supplied (or fallback) message, and the raw body. -/
structure ClassifiedError where
  kind : ErrorKind
  status_code : Nat
  message : String
  body : Option Json

/-- Modelled from the spec: the provider-supplied message text of an error
body, or a generic fallback if absent. -/
def errMessage : Option Json → String
  | some (Json.obj fields) =>
    match jlookup fields "message" with
    | some (Json.str m) => m
    | _ => "request failed"
  | _ => "request failed"

/-- Modelled from the spec: the Error Classifier's fixed mapping from a
non-2xx transport status (with optional provider error body) to exactly one
typed error outcome. -/
def classifyError (status : Nat) (body : Option Json) : ClassifiedError :=
  if status = 401 ∨ status = 403 then
    ⟨ErrorKind.authentication, status, errMessage body, body⟩
  else if status = 404 then
    ⟨ErrorKind.notFound, status, errMessage body, body⟩
  else if status = 422 ∨ status = 400 then
    ⟨ErrorKind.providerConfiguration, status, errMessage body, body⟩
  else if status = 429 then
    ⟨ErrorKind.quotaExceeded, status, errMessage body, body⟩
  else if 500 ≤ status ∧ status ≤ 599 then
    ⟨ErrorKind.providerUnavailable, status, errMessage body, body⟩
  else
    ⟨ErrorKind.provider, status, errMessage body, body⟩

/-- Modelled from the spec: the client facade's error taxonomy: local
configuration errors, classified provider errors and parse errors. -/
inductive OddsError where
  | config (e : ConfigError) : OddsError
  | provider (e : ClassifiedError) : OddsError
  | parse (e : ParseError) : OddsError

/-- Lift of a parse result into the facade's error taxonomy. -/
def liftParse : Except ParseError α → Except OddsError α
  | Except.ok a => Except.ok a
  | Except.error e => Except.error (OddsError.parse e)

/-- Modelled from the spec: the client holds only the immutable API key
resolved at construction. -/
structure Client where
  apiKey : String
deriving DecidableEq

/-- Modelled from the spec: construction resolves the API key from the
explicit argument or the single process-wide environment fallback; a
missing key is a ConfigurationError raised at construction, before any
network activity (construction performs no transport call at all). -/
def mkClient (explicitKey : Option String) (envKey : Option String) :
    Except ConfigError Client :=
  match explicitKey with
  | some k => Except.ok ⟨k⟩
  | none =>
    match envKey with
    | some k => Except.ok ⟨k⟩
    | none => Except.error ConfigError.missingApiKey

/-- Modelled from the spec: a facade call for the odds endpoint: build the
request, perform exactly one transport call on success, and feed a 2xx body
to the sequence-of-Event parser or classify the error otherwise; the second
component records every transport request issued. -/
def runGetOdds (transport : Request → Nat × Json) (c : Client) (cfg : OddsConfig) :
    Except OddsError (List Event) × List Request :=
  match buildOddsRequest c.apiKey cfg with
  | Except.error e => (Except.error (OddsError.config e), [])
  | Except.ok req =>
    let status := (transport req).1
    let body := (transport req).2
    if 200 ≤ status && status ≤ 299 then
      (liftParse (parseList parseEvent body), [req])
    else
      (Except.error (OddsError.provider (classifyError status (some body))), [req])

/-- Modelled from the spec: a facade call for the single-event odds
endpoint, whose 2xx body is parsed as one singular Event. -/
def runGetEventOdds (transport : Request → Nat × Json) (c : Client)
    (eventId : String) (cfg : OddsConfig) : Except OddsError Event × List Request :=
  match buildEventOddsRequest c.apiKey eventId cfg with
  | Except.error e => (Except.error (OddsError.config e), [])
  | Except.ok req =>
    let status := (transport req).1
    let body := (transport req).2
    if 200 ≤ status && status ≤ 299 then
      (liftParse (parseEvent body), [req])
    else
      (Except.error (OddsError.provider (classifyError status (some body))), [req])

/-- The historical-envelope payload of testable property 5. -/
def histPayload : Json :=
  Json.obj [("timestamp", Json.str "2023-11-29T22:40:39Z"),
            ("previous_timestamp", Json.null),
            ("next_timestamp", Json.str "2023-11-29T22:45:39Z"),
            ("data", Json.arr [])]

/-- A scored-game payload with completed false and no scores key. -/
def scoredGameNoScores : Json :=
  Json.obj [("id", Json.str "g1"),
            ("sport_key", Json.str "americanfootball_nfl"),
            ("sport_title", Json.str "NFL"),
            ("commence_time", Json.str "2023-11-29T22:40:39Z"),
            ("home_team", Json.str "Chiefs"),
            ("away_team", Json.str "Raiders"),
            ("completed", Json.bool false)]

/-- An Outcome payload carrying a price of -110 and a point of -3.5. -/
def outcomeWithPoint : Json :=
  Json.obj [("name", Json.str "Chiefs"),
            ("price", Json.num (-110)),
            ("point", Json.num ((-7 : Rat) / 2))]

/-- An Outcome payload lacking the point key. -/
def outcomeNoPoint : Json :=
  Json.obj [("name", Json.str "Chiefs"),
            ("price", Json.num (-110))]

/-- An error body carrying a provider message. -/
def quotaBody : Json :=
  Json.obj [("message", Json.str "quota exceeded")]

/-- A single-event odds payload. -/
def sampleEventJson : Json :=
  Json.obj [("id", Json.str "evt1"),
            ("sport_key", Json.str "basketball_nba"),
            ("commence_time", Json.str "2023-11-29T22:40:39Z"),
            ("home_team", Json.str "Lakers"),
            ("away_team", Json.str "Celtics"),
            ("bookmakers", Json.arr [Json.obj [("key", Json.str "fanduel"),
              ("title", Json.str "FanDuel"),
              ("last_update", Json.str "2023-11-29T22:40:39Z"),
              ("markets", Json.arr [])]])]

/-- The instant all sample payloads use. -/
def sampleInstant : UTCInstant := ⟨2023, 11, 29, 22, 40, 39⟩

/-- The bookmaker value the sample event payload parses to. -/
def sampleBookmaker : Bookmaker := ⟨"fanduel", "FanDuel", sampleInstant, [], none, none⟩

/-- The event value the sample event payload parses to. -/
def sampleEvent : Event :=
  ⟨"evt1", "basketball_nba", sampleInstant, "Lakers", "Celtics", [sampleBookmaker]⟩

/-- A configuration with both regions and bookmakers supplied. -/
def cfgBoth : OddsConfig :=
  ⟨"americanfootball_nfl", some ["us"], some ["h2h"], none, none,
    some ["fanduel", "draftkings", "betmgm"], none, none, none, false, false, false⟩

/-- A configuration whose commence-time window is reversed. -/
def cfgLate : OddsConfig :=
  ⟨"upcoming", some ["us"], some ["h2h"], none, none, none,
    some ⟨2024, 1, 2, 0, 0, 0⟩, some ⟨2024, 1, 1, 0, 0, 0⟩, none, false, false, false⟩

/-- A configuration whose commence-time window is properly ordered. -/
def cfgOkTimes : OddsConfig :=
  ⟨"upcoming", some ["us"], some ["h2h"], none, none, none,
    some ⟨2024, 1, 1, 0, 0, 0⟩, some ⟨2024, 1, 2, 0, 0, 0⟩, none, false, false, false⟩

/-- A small valid configuration for event-odds calls. -/
def cfgSimple : OddsConfig :=
  ⟨"basketball_nba", some ["us"], some ["h2h"], none, none, none,
    none, none, none, false, false, false⟩

/-- The canonical request the simple configuration builds for event evt1. -/
def sampleRequest : Request :=
  ⟨"/v4/sports/basketball_nba/events/evt1/odds", oddsParams "key" cfgSimple⟩

lemma splitCharsAux_no_comma (v : List Char) :
    ∀ acc : List Char, ',' ∉ v → splitCharsAux acc v = [acc.reverse ++ v] := by
  induction v with
  | nil => intro acc _; simp [splitCharsAux]
  | cons c cs ih =>
    intro acc h
    have hc : ¬ c = ',' := by
      intro hh; exact h (hh ▸ List.mem_cons_self c cs)
    have hcs : ',' ∉ cs := fun hm => h (List.mem_cons_of_mem _ hm)
    simp [splitCharsAux, hc, ih (c :: acc) hcs]

lemma splitCharsAux_comma (v : List Char) :
    ∀ (acc rest : List Char), ',' ∉ v →
      splitCharsAux acc (v ++ ',' :: rest) =
        (acc.reverse ++ v) :: splitCharsAux [] rest := by
  induction v with
  | nil => intro acc rest _; simp [splitCharsAux]
  | cons c cs ih =>
    intro acc rest h
    have hc : ¬ c = ',' := by
      intro hh; exact h (hh ▸ List.mem_cons_self c cs)
    have hcs : ',' ∉ cs := fun hm => h (List.mem_cons_of_mem _ hm)
    simp [splitCharsAux, hc, ih (c :: acc) rest hcs]

lemma joinCharsAux_roundtrip (l : List (List Char)) (h : ∀ v ∈ l, ',' ∉ v)
    (hne : l ≠ []) : splitCharsAux [] (joinCharsAux l) = l := by
  induction l with
  | nil => exact absurd rfl hne
  | cons v vs ih =>
    cases vs with
    | nil =>
      have hv : ',' ∉ v := h v (List.mem_cons_self v [])
      simp [joinCharsAux, splitCharsAux_no_comma v [] hv]
    | cons w ws =>
      have hv : ',' ∉ v := h v (List.mem_cons_self v _)
      have hrest : ∀ u ∈ w :: ws, ',' ∉ u := fun u hu => h u (List.mem_cons_of_mem _ hu)
      rw [joinCharsAux, splitCharsAux_comma v [] _ hv]
      simp [ih hrest (by simp)]

/-- Claim C6: constructing the client with no explicit API key and no value
in the single environment fallback raises ConfigurationError at
construction (a pure computation, before any network activity); when either
source supplies a key, construction succeeds, the explicit argument taking
precedence. -/
theorem api_key_resolution :
    mkClient none none = Except.error ConfigError.missingApiKey ∧
    (∀ (k : String) (env : Option String), mkClient (some k) env = Except.ok ⟨k⟩) ∧
    (∀ k : String, mkClient none (some k) = Except.ok ⟨k⟩) :=
  ⟨rfl, fun _ _ => rfl, fun _ => rfl⟩

/-- Claim C7: for every sequence-returning endpoint parser, an empty JSON
array body parses to the empty sequence, never a ParseError. -/
theorem empty_array_parses_empty :
    parseList parseSport (Json.arr []) = Except.ok [] ∧
    parseList parseEvent (Json.arr []) = Except.ok [] ∧
    parseList parseScoredGame (Json.arr []) = Except.ok [] ∧
    parseList parseParticipant (Json.arr []) = Except.ok [] ∧
    parseList parseBookmaker (Json.arr []) = Except.ok [] :=
  ⟨rfl, rfl, rfl, rfl, rfl⟩

/-- Claim C5: an optional field absent from the source JSON maps to an
absent field on the domain object: the optional-field extractors map a
missing key to not-present, a scored game with completed false and no
scores key parses with scores absent, and an Outcome parses point exactly
when present (here price -110 with point -3.5, and price -110 alone). -/
theorem optional_fields_absent :
    (∀ (fields : List (String × Json)) (k : String),
      jlookup fields k = none → optNum fields k = Except.ok none) ∧
    (∀ (fields : List (String × Json)) (k : String),
      jlookup fields k = none → optStr fields k = Except.ok none) ∧
    (∀ fields : List (String × Json),
      jlookup fields "scores" = none → optScores fields = Except.ok none) ∧
    parseScoredGame scoredGameNoScores =
      Except.ok ⟨"g1", "americanfootball_nfl", "NFL", sampleInstant,
        "Chiefs", "Raiders", false, none⟩ ∧
    parseOutcome outcomeWithPoint =
      Except.ok ⟨"Chiefs", -110, some ((-7 : Rat) / 2), none, none, none⟩ ∧
    parseOutcome outcomeNoPoint =
      Except.ok ⟨"Chiefs", -110, none, none, none, none⟩ := by
  refine ⟨?_, ?_, ?_, rfl, rfl, rfl⟩
  · intro fields k h; simp [optNum, h]
  · intro fields k h; simp [optStr, h]
  · intro fields h; simp [optScores, h]

/-- Witness for claim C5 at concrete inputs: the extractors on an object
with no fields at all. -/
theorem optional_fields_absent_witness :
    optNum [] "point" = Except.ok none ∧ optScores [] = Except.ok none :=
  ⟨optional_fields_absent.1 [] "point" rfl, optional_fields_absent.2.2.1 [] rfl⟩

/-- Claim C2: the Error Classifier's fixed mapping: 401 or 403 gives
AuthenticationError, 404 NotFoundError, 422 or 400 the provider-side
ConfigurationError, 429 QuotaExceededError, any 5xx
ProviderUnavailableError, and any other non-2xx the generic ProviderError
carrying the raw status and body; in particular status 429 with a quota
message body classifies as QuotaExceededError carrying that message. -/
theorem error_classifier_mapping :
    (∀ (s : Nat) (b : Option Json),
      (s = 401 ∨ s = 403 →
        classifyError s b = ⟨ErrorKind.authentication, s, errMessage b, b⟩) ∧
      (s = 404 → classifyError s b = ⟨ErrorKind.notFound, s, errMessage b, b⟩) ∧
      (s = 422 ∨ s = 400 →
        classifyError s b = ⟨ErrorKind.providerConfiguration, s, errMessage b, b⟩) ∧
      (s = 429 → classifyError s b = ⟨ErrorKind.quotaExceeded, s, errMessage b, b⟩) ∧
      (500 ≤ s ∧ s ≤ 599 →
        classifyError s b = ⟨ErrorKind.providerUnavailable, s, errMessage b, b⟩) ∧
      (¬ (200 ≤ s ∧ s ≤ 299) → s ≠ 401 → s ≠ 403 → s ≠ 404 → s ≠ 422 → s ≠ 400 →
        s ≠ 429 → ¬ (500 ≤ s ∧ s ≤ 599) →
        classifyError s b = ⟨ErrorKind.provider, s, errMessage b, b⟩)) ∧
    classifyError 429 (some quotaBody) =
      ⟨ErrorKind.quotaExceeded, 429, "quota exceeded", some quotaBody⟩ := by
  refine ⟨fun s b => ⟨?_, ?_, ?_, ?_, ?_, ?_⟩, rfl⟩
  · rintro (rfl | rfl) <;> rfl
  · rintro rfl; rfl
  · rintro (rfl | rfl) <;> rfl
  · rintro rfl; rfl
  · rintro ⟨h1, h2⟩
    have ha : s ≠ 401 := by omega
    have hb : s ≠ 403 := by omega
    have hc : s ≠ 404 := by omega
    have hd : s ≠ 422 := by omega
    have he : s ≠ 400 := by omega
    have hf : s ≠ 429 := by omega
    simp [classifyError, ha, hb, hc, hd, he, hf, h1, h2]
  · intro _ ha hb hc hd he hf hg
    simp [classifyError, ha, hb, hc, hd, he, hf, hg]

/-- Witness for claim C2 at concrete inputs: a 503 body-less response
classifies as ProviderUnavailableError with the fallback message. -/
theorem error_classifier_mapping_witness :
    classifyError 503 none =
      ⟨ErrorKind.providerUnavailable, 503, "request failed", none⟩ :=
  (error_classifier_mapping.1 503 none).2.2.2.2.1 ⟨by decide, by decide⟩

/-- Claim C3: whenever both regions and bookmakers are supplied, the facade
call fails with the local ConfigurationError for their mutual exclusion and
issues no transport request at all (the empty request log). -/
theorem regions_bookmakers_exclusive :
    ∀ (transport : Request → Nat × Json) (c : Client) (cfg : OddsConfig)
      (rs bs : List String),
      cfg.regions = some rs → cfg.bookmakers = some bs →
      runGetOdds transport c cfg =
        (Except.error (OddsError.config ConfigError.regionsBookmakersExclusive), []) := by
  intro transport c cfg rs bs h1 h2
  simp [runGetOdds, buildOddsRequest, buildRequestAt, h1, h2]

/-- Witness for claim C3 at a concrete configuration supplying both regions
and bookmakers. -/
theorem regions_bookmakers_exclusive_witness :
    runGetOdds (fun _ => (200, Json.arr [])) ⟨"key"⟩ cfgBoth =
      (Except.error (OddsError.config ConfigError.regionsBookmakersExclusive), []) :=
  regions_bookmakers_exclusive (fun _ => (200, Json.arr [])) ⟨"key"⟩ cfgBoth
    ["us"] ["fanduel", "draftkings", "betmgm"] rfl rfl

/-- Claim C4: when both commence-time bounds are supplied with from greater
than to, the Request Builder fails with a local ConfigurationError (and the
facade issues no transport request); with from at most to this validation
passes and, absent the regions/bookmakers conflict, the build succeeds. -/
theorem commence_time_order_validation :
    (∀ (k : String) (cfg : OddsConfig) (tf tt : UTCInstant),
      cfg.commence_time_from = some tf → cfg.commence_time_to = some tt →
      tt.toKey < tf.toKey → ∃ e, buildOddsRequest k cfg = Except.error e) ∧
    (∀ (transport : Request → Nat × Json) (c : Client) (cfg : OddsConfig)
       (tf tt : UTCInstant),
      cfg.commence_time_from = some tf → cfg.commence_time_to = some tt →
      tt.toKey < tf.toKey →
      ∃ e, runGetOdds transport c cfg = (Except.error (OddsError.config e), [])) ∧
    (∀ (k : String) (cfg : OddsConfig) (tf tt : UTCInstant),
      cfg.commence_time_from = some tf → cfg.commence_time_to = some tt →
      tf.toKey ≤ tt.toKey → cfg.bookmakers = none →
      buildOddsRequest k cfg =
        Except.ok ⟨"/v4/sports/" ++ cfg.sport ++ "/odds", oddsParams k cfg⟩) := by
  refine ⟨?_, ?_, ?_⟩
  · intro k cfg tf tt h1 h2 h3
    cases hb : cfg.regions.isSome && cfg.bookmakers.isSome with
    | true =>
      exact ⟨ConfigError.regionsBookmakersExclusive,
        by simp [buildOddsRequest, buildRequestAt, hb]⟩
    | false =>
      exact ⟨ConfigError.commenceTimeOrder,
        by simp [buildOddsRequest, buildRequestAt, hb, h1, h2, h3]⟩
  · intro transport c cfg tf tt h1 h2 h3
    cases hb : cfg.regions.isSome && cfg.bookmakers.isSome with
    | true =>
      exact ⟨ConfigError.regionsBookmakersExclusive,
        by simp [runGetOdds, buildOddsRequest, buildRequestAt, hb]⟩
    | false =>
      exact ⟨ConfigError.commenceTimeOrder,
        by simp [runGetOdds, buildOddsRequest, buildRequestAt, hb, h1, h2, h3]⟩
  · intro k cfg tf tt h1 h2 h3 h4
    have hlt : ¬ tt.toKey < tf.toKey := by omega
    simp [buildOddsRequest, buildRequestAt, h1, h2, h4, hlt]

/-- Witness for claim C4 at concrete configurations: a reversed window
fails before any transport call, a properly ordered one builds. -/
theorem commence_time_order_validation_witness :
    (∃ e, buildOddsRequest "key" cfgLate = Except.error e) ∧
    (∃ e, runGetOdds (fun _ => (200, Json.arr [])) ⟨"key"⟩ cfgLate =
      (Except.error (OddsError.config e), [])) ∧
    buildOddsRequest "key" cfgOkTimes =
      Except.ok ⟨"/v4/sports/" ++ cfgOkTimes.sport ++ "/odds", oddsParams "key" cfgOkTimes⟩ :=
  ⟨commence_time_order_validation.1 "key" cfgLate ⟨2024, 1, 2, 0, 0, 0⟩
      ⟨2024, 1, 1, 0, 0, 0⟩ rfl rfl (by decide),
   commence_time_order_validation.2.1 (fun _ => (200, Json.arr [])) ⟨"key"⟩ cfgLate
      ⟨2024, 1, 2, 0, 0, 0⟩ ⟨2024, 1, 1, 0, 0, 0⟩ rfl rfl (by decide),
   commence_time_order_validation.2.2 "key" cfgOkTimes ⟨2024, 1, 1, 0, 0, 0⟩
      ⟨2024, 1, 2, 0, 0, 0⟩ rfl rfl (by decide) rfl⟩

/-- Counterexample to claim C8 as stated: a value containing a comma does
not survive the serialize/re-parse round trip (and this is forced by any
comma-joined serialization). -/
theorem list_param_roundtrip_counterexample :
    splitComma (joinComma ["a,b"]) ≠ ["a,b"] := by decide

/-- Claim C8 (amended): for every list-valued parameter whose supplied
values are comma-free and whose list is nonempty, the Request Builder
serializes it as the comma-joined string of the values in the order
supplied, and re-parsing that string yields the same values in the same
order. -/
theorem list_param_roundtrip :
    ∀ (name : String) (vs : List String),
      vs ≠ [] → (∀ v ∈ vs, ',' ∉ v.data) →
      listParam name (some vs) = [(name, joinComma vs)] ∧
      splitComma (joinComma vs) = vs := by
  intro name vs hne hfree
  refine ⟨rfl, ?_⟩
  show (splitCharsAux [] (String.mk (joinCharsAux (vs.map String.data))).data).map
    (fun cs => String.mk cs) = vs
  rw [show (String.mk (joinCharsAux (vs.map String.data))).data =
    joinCharsAux (vs.map String.data) from rfl]
  rw [joinCharsAux_roundtrip (vs.map String.data)]
  · rw [List.map_map]
    have hcomp : (fun cs => String.mk cs) ∘ String.data = fun s : String => s :=
      funext fun s => rfl
    rw [hcomp, List.map_id']
  · intro v hv
    rcases List.mem_map.mp hv with ⟨s, hs, rfl⟩
    exact hfree s hs
  · intro hmap
    exact hne (by simpa using hmap)

/-- Witness for the amended claim C8 at a concrete parameter. -/
theorem list_param_roundtrip_witness :
    listParam "regions" (some ["us", "uk"]) = [("regions", joinComma ["us", "uk"])] ∧
    splitComma (joinComma ["us", "uk"]) = ["us", "uk"] :=
  list_param_roundtrip "regions" ["us", "uk"] (by decide) (by decide)

/-- Claim C10: on every successful (2xx) call, the single-event odds facade
method parses the body as one singular Event while the odds facade method
parses a sequence of Event; the sample event exposes id, sport_key,
home_team, away_team and its bookmakers sequence directly. -/
theorem event_odds_returns_single_event :
    (∀ (c : Client) (eventId : String) (cfg : OddsConfig) (req : Request) (body : Json),
      buildEventOddsRequest c.apiKey eventId cfg = Except.ok req →
      runGetEventOdds (fun _ => (200, body)) c eventId cfg =
        (liftParse (parseEvent body), [req])) ∧
    (∀ (c : Client) (cfg : OddsConfig) (req : Request) (body : Json),
      buildOddsRequest c.apiKey cfg = Except.ok req →
      runGetOdds (fun _ => (200, body)) c cfg =
        (liftParse (parseList parseEvent body), [req])) ∧
    parseEvent sampleEventJson = Except.ok sampleEvent ∧
    sampleEvent.id = "evt1" ∧ sampleEvent.sport_key = "basketball_nba" ∧
    sampleEvent.home_team = "Lakers" ∧ sampleEvent.away_team = "Celtics" ∧
    sampleEvent.bookmakers = [sampleBookmaker] ∧
    parseList parseEvent (Json.arr [sampleEventJson]) = Except.ok [sampleEvent] := by
  refine ⟨?_, ?_, rfl, rfl, rfl, rfl, rfl, rfl, rfl⟩
  · intro c eventId cfg req body h
    simp [runGetEventOdds, h]
  · intro c cfg req body h
    simp [runGetOdds, h]

/-- Witness for claim C10 at a concrete successful call returning the
sample event payload. -/
theorem event_odds_returns_single_event_witness :
    runGetEventOdds (fun _ => (200, sampleEventJson)) ⟨"key"⟩ "evt1" cfgSimple =
      (liftParse (parseEvent sampleEventJson), [sampleRequest]) :=
  event_odds_returns_single_event.1 ⟨"key"⟩ "evt1" cfgSimple sampleRequest
    sampleEventJson rfl

lemma envLookup_ts (a b c d : Json) :
    jlookup [("timestamp", a), ("previous_timestamp", b), ("next_timestamp", c),
      ("data", d)] "timestamp" = some a := rfl

lemma envLookup_prev (a b c d : Json) :
    jlookup [("timestamp", a), ("previous_timestamp", b), ("next_timestamp", c),
      ("data", d)] "previous_timestamp" = some b := rfl

lemma envLookup_next (a b c d : Json) :
    jlookup [("timestamp", a), ("previous_timestamp", b), ("next_timestamp", c),
      ("data", d)] "next_timestamp" = some c := rfl

lemma envLookup_data (a b c d : Json) :
    jlookup [("timestamp", a), ("previous_timestamp", b), ("next_timestamp", c),
      ("data", d)] "data" = some d := rfl

/-- Claim C1: for every historical endpoint, the parser detects the
snapshot envelope and produces a HistoricalSnapshot whose timestamp is
present, whose previous/next timestamps are absent exactly when the
corresponding JSON field is null, and whose data is parsed by the same
per-entity inner parser as the live endpoint (so a singular Event or a
sequence of Event is preserved); in particular the envelope of testable
property 5 yields previous_timestamp absent, next_timestamp present, and
an empty data sequence. -/
theorem historical_envelope_parse :
    (∀ (α : Type) (inner : Json → Except ParseError α) (tsStr : String)
       (t : UTCInstant) (prevJ nextJ dataJ : Json) (v : α),
      parseTimestamp tsStr = some t →
      (prevJ = Json.null ∨ ∃ s u, prevJ = Json.str s ∧ parseTimestamp s = some u) →
      (nextJ = Json.null ∨ ∃ s u, nextJ = Json.str s ∧ parseTimestamp s = some u) →
      inner dataJ = Except.ok v →
      ∃ snap, parseHistorical inner
          (Json.obj [("timestamp", Json.str tsStr), ("previous_timestamp", prevJ),
            ("next_timestamp", nextJ), ("data", dataJ)]) = Except.ok snap ∧
        snap.timestamp = t ∧ snap.data = v ∧
        (snap.previous_timestamp = none ↔ prevJ = Json.null) ∧
        (snap.next_timestamp = none ↔ nextJ = Json.null)) ∧
    parseHistorical (parseList parseEvent) histPayload =
      Except.ok ⟨sampleInstant, none, some ⟨2023, 11, 29, 22, 45, 39⟩, []⟩ := by
  refine ⟨?_, rfl⟩
  intro α inner tsStr t prevJ nextJ dataJ v hts hprev hnext hdata
  rcases hprev with hp | ⟨ps, pu, hp, hpt⟩ <;>
    rcases hnext with hn | ⟨ns, nu, hn, hnt⟩ <;> subst hp <;> subst hn
  · exact ⟨⟨t, none, none, v⟩,
      by simp [parseHistorical, reqTime, optTime, envLookup_ts, envLookup_prev,
        envLookup_next, envLookup_data, hts, hdata], rfl, rfl, by simp, by simp⟩
  · exact ⟨⟨t, none, some nu, v⟩,
      by simp [parseHistorical, reqTime, optTime, envLookup_ts, envLookup_prev,
        envLookup_next, envLookup_data, hts, hnt, hdata], rfl, rfl, by simp, by simp⟩
  · exact ⟨⟨t, some pu, none, v⟩,
      by simp [parseHistorical, reqTime, optTime, envLookup_ts, envLookup_prev,
        envLookup_next, envLookup_data, hts, hpt, hdata], rfl, rfl, by simp, by simp⟩
  · exact ⟨⟨t, some pu, some nu, v⟩,
      by simp [parseHistorical, reqTime, optTime, envLookup_ts, envLookup_prev,
        envLookup_next, envLookup_data, hts, hpt, hnt, hdata], rfl, rfl, by simp, by simp⟩

/-- Witness for claim C1 at the concrete envelope of testable property 5,
with the sequence-of-Sport inner rules. -/
theorem historical_envelope_parse_witness :
    ∃ snap, parseHistorical (parseList parseSport)
        (Json.obj [("timestamp", Json.str "2023-11-29T22:40:39Z"),
          ("previous_timestamp", Json.null),
          ("next_timestamp", Json.str "2023-11-29T22:45:39Z"),
          ("data", Json.arr [])]) = Except.ok snap ∧
      snap.timestamp = sampleInstant ∧ snap.data = ([] : List Sport) ∧
      (snap.previous_timestamp = none ↔ (Json.null : Json) = Json.null) ∧
      (snap.next_timestamp = none ↔ Json.str "2023-11-29T22:45:39Z" = Json.null) :=
  historical_envelope_parse.1 (List Sport) (parseList parseSport)
    "2023-11-29T22:40:39Z" sampleInstant Json.null
    (Json.str "2023-11-29T22:45:39Z") (Json.arr []) [] rfl (Or.inl rfl)
    (Or.inr ⟨"2023-11-29T22:45:39Z", ⟨2023, 11, 29, 22, 45, 39⟩, rfl, rfl⟩) rfl
